import Mathlib

/-! Shallow embedding of `production/new_cloud_extractor_q1.py` from the
`astrodendro_analysis` repository.

A catalog is a `List Row`; each `Row` is one dendrogram structure. Plain
float columns are idealized as `ℚ` (all comparisons in the region filters
are against rational literals), while the kinematic-distance columns
(`near_distance`, `far_distance`, `distance`) are `Option ℝ`, with `none`
playing the role of IEEE NaN: any numpy comparison involving NaN is false,
which is exactly the behaviour of `ole` / `olt` / `oeq` below on `none`.
The angular `radius` column is stored already converted to radians (the
source converts via `radius.to(u.rad).value` before using it).

External collaborators that live outside this file's source
(`reduce_catalog`, `assign_properties`, `compute_tree_stats`,
`identify_edge_structures`, `make_reid_distance_column`) are taken as
function parameters, or modelled from their documented contracts where a
concrete shape is needed. -/

structure Row where
  v_cen : ℚ
  x_cen : ℚ
  y_cen : ℚ
  v_rms : ℚ
  radius : ℚ
  on_edge : Bool
  n_descendants : ℕ
  fractional_gain : ℚ
  near_distance : Option ℝ
  far_distance : Option ℝ
  distance : Option ℝ
  mass : ℚ

/-- Comparison `a <= b` with numpy float semantics: `none` models NaN, and a
comparison involving NaN is false. -/
def ole : Option ℝ → Option ℝ → Prop
  | some x, some y => x ≤ y
  | _, _ => False

/-- Comparison `a < b` with numpy float semantics (false on NaN). -/
def olt : Option ℝ → Option ℝ → Prop
  | some x, some y => x < y
  | _, _ => False

/-- Comparison `a == b` with numpy float semantics (false on NaN, even
`NaN == NaN`). -/
def oeq : Option ℝ → Option ℝ → Prop
  | some x, some y => x = y
  | _, _ => False

noncomputable instance (a b : Option ℝ) : Decidable (ole a b) :=
  Classical.dec _

noncomputable instance (a b : Option ℝ) : Decidable (olt a b) :=
  Classical.dec _

noncomputable instance (a b : Option ℝ) : Decidable (oeq a b) :=
  Classical.dec _

theorem ole_some {x y : ℝ} : ole (some x) (some y) ↔ x ≤ y := Iff.rfl

theorem olt_some {x y : ℝ} : olt (some x) (some y) ↔ x < y := Iff.rfl

theorem oeq_some {x y : ℝ} : oeq (some x) (some y) ↔ x = y := Iff.rfl

theorem ole_none_left (b : Option ℝ) : ¬ ole none b := by
  cases b <;> exact fun h => h

theorem ole_none_right (a : Option ℝ) : ¬ ole a none := by
  cases a <;> exact fun h => h

theorem olt_none_left (b : Option ℝ) : ¬ olt none b := by
  cases b <;> exact fun h => h

theorem olt_none_right (a : Option ℝ) : ¬ olt a none := by
  cases a <;> exact fun h => h

theorem not_olt_of_ole {a b : Option ℝ} (h : ole a b) : ¬ olt b a := by
  cases a with
  | none => exact absurd h (ole_none_left b)
  | some x =>
    cases b with
    | none => exact absurd h (ole_none_right _)
    | some y => exact not_lt.2 h

/-- Calibration constant from the source: `quad2_fit_constant`. -/
def quad2_fit_constant : ℝ := 0.48293812090592952

/-- Calibration constant from the source: `quad2_fit_power`. -/
def quad2_fit_power : ℝ := 0.56796770148326814

/-- `expected_size` from `distance_disambiguator`:
`(1 / quad2_fit_constant * v_rms) ** (1 / quad2_fit_power)` (in pc). -/
noncomputable def expected_size (v_rms : ℝ) : ℝ :=
  (1 / quad2_fit_constant * v_rms) ^ (1 / quad2_fit_power)

/-- `near_size = sky_radius.to(u.rad).value * near_distance`; `none` (NaN)
propagates. -/
noncomputable def near_size (r : Row) : Option ℝ :=
  Option.map (fun dd => (r.radius : ℝ) * dd) r.near_distance

/-- `far_size = sky_radius.to(u.rad).value * far_distance`; `none` (NaN)
propagates. -/
noncomputable def far_size (r : Row) : Option ℝ :=
  Option.map (fun dd => (r.radius : ℝ) * dd) r.far_distance

/-- `np.abs(near_size - expected_size)`, with NaN propagation. -/
noncomputable def near_size_deviation (r : Row) : Option ℝ :=
  Option.map (fun s => |s - expected_size (r.v_rms : ℝ)|) (near_size r)

/-- `np.abs(far_size - expected_size)`, with NaN propagation. -/
noncomputable def far_size_deviation (r : Row) : Option ℝ :=
  Option.map (fun s => |s - expected_size (r.v_rms : ℝ)|) (far_size r)

/-- Mask `use_near_distance` from the source:
`np.abs(near_size - expected_size) <= np.abs(far_size - expected_size)`. -/
def use_near_distance (r : Row) : Prop :=
  ole (near_size_deviation r) (far_size_deviation r)

/-- Mask `use_far_distance` from the source:
`np.abs(near_size - expected_size) > np.abs(far_size - expected_size)`. -/
def use_far_distance (r : Row) : Prop :=
  olt (far_size_deviation r) (near_size_deviation r)

/-- Mask `use_near_distance_latitude` from the source:
`np.abs(catalog['y_cen']) > 1`. -/
def use_near_distance_latitude (r : Row) : Prop := |r.y_cen| > 1

instance : DecidablePred use_near_distance_latitude := fun r => by
  unfold use_near_distance_latitude; infer_instance

noncomputable instance : DecidablePred use_near_distance := fun r => by
  unfold use_near_distance; infer_instance

noncomputable instance : DecidablePred use_far_distance := fun r => by
  unfold use_far_distance; infer_instance

/-- `distance_disambiguator` (source lines 256-293), per row. The source
initializes `best_distance = np.zeros_like(near_distance_column)` and then
performs three sequential masked assignments (near mask, far mask, latitude
mask); per row this collapses to nested conditionals with the last
assignment (latitude) outermost. The near and far masks are mutually
exclusive, so their relative order is immaterial. -/
noncomputable def distance_disambiguator (r : Row) : Option ℝ :=
  if use_near_distance_latitude r then r.near_distance
  else if use_far_distance r then r.far_distance
  else if use_near_distance r then r.near_distance
  else some 0

theorem distance_disambiguator_of_latitude {r : Row}
    (h : use_near_distance_latitude r) :
    distance_disambiguator r = r.near_distance := by
  unfold distance_disambiguator
  rw [if_pos h]

theorem distance_disambiguator_of_near {r : Row} (h : use_near_distance r) :
    distance_disambiguator r = r.near_distance := by
  unfold distance_disambiguator
  by_cases hl : use_near_distance_latitude r
  · rw [if_pos hl]
  · rw [if_neg hl, if_neg (fun hf : use_far_distance r => not_olt_of_ole h hf),
      if_pos h]

theorem distance_disambiguator_of_far {r : Row}
    (hl : ¬ use_near_distance_latitude r) (h : use_far_distance r) :
    distance_disambiguator r = r.far_distance := by
  unfold distance_disambiguator
  rw [if_neg hl, if_pos h]

theorem distance_disambiguator_of_none {r : Row}
    (hl : ¬ use_near_distance_latitude r) (hf : ¬ use_far_distance r)
    (hn : ¬ use_near_distance r) : distance_disambiguator r = some 0 := by
  unfold distance_disambiguator
  rw [if_neg hl, if_neg hf, if_neg hn]

/-- Disqualification mask of `get_positive_velocity_clouds` (source lines
100-105): `(v_cen < 20) | (on_edge == 1) | (v_rms <= 1) | (v_rms > 10)`. -/
def positive_disqualified (r : Row) : Prop :=
  r.v_cen < 20 ∨ r.on_edge = true ∨ r.v_rms ≤ 1 ∨ r.v_rms > 10

instance : DecidablePred positive_disqualified := fun r => by
  unfold positive_disqualified; infer_instance

/-- Qualification mask of `get_positive_velocity_clouds` (source lines
107-109): `(n_descendants < max_descendants) & (fractional_gain < 0.81)`. -/
def positive_qualified (max_descendants : ℕ) (r : Row) : Prop :=
  r.n_descendants < max_descendants ∧ r.fractional_gain < 0.81

instance (md : ℕ) : DecidablePred (positive_qualified md) := fun r => by
  unfold positive_qualified; infer_instance

/-- `catalog[~disqualified & qualified]` for the positive-velocity region
(source line 111). -/
def positive_pre_filter (max_descendants : ℕ) (input_catalog : List Row) :
    List Row :=
  input_catalog.filter fun r =>
    decide (¬ positive_disqualified r ∧ positive_qualified max_descendants r)

/-- Disqualification mask of `get_negative_velocity_clouds` (source lines
162-167): `(v_cen > -5) | (on_edge == 1)`. -/
def negative_disqualified (r : Row) : Prop :=
  r.v_cen > -5 ∨ r.on_edge = true

instance : DecidablePred negative_disqualified := fun r => by
  unfold negative_disqualified; infer_instance

/-- Galactic-center exclusion of `get_negative_velocity_clouds` (source lines
174-175): `(v_cen < -10) & (x_cen < 20)`. -/
def negative_gc_disqualified (r : Row) : Prop :=
  r.v_cen < -10 ∧ r.x_cen < 20

instance : DecidablePred negative_gc_disqualified := fun r => by
  unfold negative_gc_disqualified; infer_instance

/-- `catalog[~disqualified & ~disqualified_extreme_negative_velocities_near_GC]`
(source lines 177-178). -/
def negative_pre_filter (input_catalog : List Row) : List Row :=
  input_catalog.filter fun r =>
    decide (¬ negative_disqualified r ∧ ¬ negative_gc_disqualified r)

/-- Disqualification mask of `get_low_velocity_perseus_clouds` (source lines
220-228). Note the source's third disjunct is `np.abs(catalog['y_cen'] > 1)`:
`np.abs` is applied to the Boolean mask `y_cen > 1`, on which it is the
identity, so the condition is equivalent to `y_cen > 1` (negative latitudes
are not disqualified). -/
def perseus_disqualified (r : Row) : Prop :=
  r.v_cen < -5 ∨ r.v_cen > 20 ∨ r.y_cen > 1 ∨ r.x_cen < 35 ∨
    r.on_edge = true ∨ r.v_rms ≤ 1 ∨ r.v_rms > 10

instance : DecidablePred perseus_disqualified := fun r => by
  unfold perseus_disqualified; infer_instance

/-- Qualification mask of `get_low_velocity_perseus_clouds` (source lines
230-232): `(n_descendants < max_descendants) & (fractional_gain < 0.81)`. -/
def perseus_qualified (max_descendants : ℕ) (r : Row) : Prop :=
  r.n_descendants < max_descendants ∧ r.fractional_gain < 0.81

instance (md : ℕ) : DecidablePred (perseus_qualified md) := fun r => by
  unfold perseus_qualified; infer_instance

/-- `catalog[~disqualified & qualified]` for the low-velocity Perseus region
(source line 234). -/
def perseus_pre_filter (max_descendants : ℕ) (input_catalog : List Row) :
    List Row :=
  input_catalog.filter fun r =>
    decide (¬ perseus_disqualified r ∧ perseus_qualified max_descendants r)

/-- Modelled from the spec: `assign_properties` (external collaborator, spec
section 6) mutates the catalog in place, computing `mass` and other physical
columns from `distance` and the structure's other attributes; it touches no
kinematic, positional, topological, or distance column. It is modelled as
updating the `mass` field of every row by a given function of the row. -/
def assign_properties (massFn : Row → ℚ) (catalog : List Row) : List Row :=
  catalog.map fun r => { r with mass := massFn r }

/-- `almost_output_catalog['distance'] = distance_disambiguator(...)`: write
the disambiguated distance into each row's `distance` column. -/
noncomputable def assign_best_distance (catalog : List Row) : List Row :=
  catalog.map fun r => { r with distance := distance_disambiguator r }

/-- `get_positive_velocity_clouds` (source lines 73-125). `reduce_catalog`
(external) is a parameter; `massFn` parameterizes the external
`assign_properties`. The final cut is `mass > 3e4` (strict). -/
noncomputable def get_positive_velocity_clouds
    (reduce_catalog : List Row → List Row) (massFn : Row → ℚ)
    (input_catalog : List Row) (max_descendants : ℕ) : List Row :=
  let pre_output_catalog := positive_pre_filter max_descendants input_catalog
  let almost_output_catalog := reduce_catalog pre_output_catalog
  let with_distance := assign_best_distance almost_output_catalog
  let with_properties := assign_properties massFn with_distance
  with_properties.filter fun r => decide ((30000 : ℚ) < r.mass)

/-- `get_negative_velocity_clouds` (source lines 128-187). No
disambiguation or property-assignment step runs in this region; the final
cut is `mass > 3e3` (strict). The `max_descendants` parameter exists in the
source signature but is unused (its qualification is commented out). -/
def get_negative_velocity_clouds (reduce_catalog : List Row → List Row)
    (input_catalog : List Row) (max_descendants : ℕ) : List Row :=
  let pre_output_catalog := negative_pre_filter input_catalog
  let almost_output_catalog := reduce_catalog pre_output_catalog
  almost_output_catalog.filter fun r => decide ((3000 : ℚ) < r.mass)

/-- `get_low_velocity_perseus_clouds` (source lines 190-253). The final cut
is `(mass > 3e4) & (distance > 5) & (distance < 14)`, the distance
comparisons having numpy NaN semantics (`olt`). -/
noncomputable def get_low_velocity_perseus_clouds
    (reduce_catalog : List Row → List Row) (massFn : Row → ℚ)
    (input_catalog : List Row) (max_descendants : ℕ) : List Row :=
  let pre_output_catalog := perseus_pre_filter max_descendants input_catalog
  let almost_output_catalog := reduce_catalog pre_output_catalog
  let with_distance := assign_best_distance almost_output_catalog
  let with_properties := assign_properties massFn with_distance
  with_properties.filter fun r =>
    decide ((30000 : ℚ) < r.mass ∧ olt (some 5) r.distance ∧
      olt r.distance (some 14))

/-- Default value of the `max_descendants` parameter of
`get_positive_velocity_clouds` (source line 73). -/
def positive_default_max_descendants : ℕ := 30

/-- Default value of the `max_descendants` parameter of
`get_negative_velocity_clouds` (source line 128). -/
def negative_default_max_descendants : ℕ := 30

/-- Default value of the `max_descendants` parameter of
`get_low_velocity_perseus_clouds` (source line 190). -/
def perseus_default_max_descendants : ℕ := 30

/-- `get_positive_velocity_clouds` invoked without an explicit
`max_descendants` argument. -/
noncomputable def get_positive_velocity_clouds_default
    (reduce_catalog : List Row → List Row) (massFn : Row → ℚ)
    (input_catalog : List Row) : List Row :=
  get_positive_velocity_clouds reduce_catalog massFn input_catalog
    positive_default_max_descendants

/-- `get_negative_velocity_clouds` invoked without an explicit
`max_descendants` argument. -/
def get_negative_velocity_clouds_default
    (reduce_catalog : List Row → List Row) (input_catalog : List Row) :
    List Row :=
  get_negative_velocity_clouds reduce_catalog input_catalog
    negative_default_max_descendants

/-- `get_low_velocity_perseus_clouds` invoked without an explicit
`max_descendants` argument. -/
noncomputable def get_low_velocity_perseus_clouds_default
    (reduce_catalog : List Row → List Row) (massFn : Row → ℚ)
    (input_catalog : List Row) : List Row :=
  get_low_velocity_perseus_clouds reduce_catalog massFn input_catalog
    perseus_default_max_descendants

/-- `compile_firstquad_catalog` (source lines 296-306): run the three region
pipelines (negative and positive with their default `max_descendants`, the
Perseus pipeline with the explicit argument `max_descendants=10`), stack the
outputs with `astropy.table.vstack` (row-wise concatenation, in the order
negative, positive, low-velocity), and apply `reduce_catalog` once more. -/
noncomputable def compile_firstquad_catalog
    (reduce_catalog : List Row → List Row) (massFn : Row → ℚ)
    (input_catalog : List Row) : List Row :=
  let negative_v_catalog :=
    get_negative_velocity_clouds_default reduce_catalog input_catalog
  let positive_v_catalog :=
    get_positive_velocity_clouds_default reduce_catalog massFn input_catalog
  let low_v_catalog :=
    get_low_velocity_perseus_clouds reduce_catalog massFn input_catalog 10
  reduce_catalog (negative_v_catalog ++ positive_v_catalog ++ low_v_catalog)

/-- Distance assignment of `first_quad_cloud_catalog` (source lines 59-64):
`distance` starts as all-NaN and is overwritten with `near_distance` exactly
where `near_distance == far_distance` (numpy float equality, `oeq`). -/
noncomputable def set_unambiguous_distance (r : Row) : Row :=
  { r with
    distance := if oeq r.near_distance r.far_distance then r.near_distance
      else none }

/-- `first_quad_cloud_catalog` (source lines 25-70). The external
collaborators are parameters: `compute_tree_stats` (sets topology columns),
`identify_edge` (the `identify_edge_structures` column), `nearFn` / `farFn`
(the `make_reid_distance_column` lookups on the `near` / `far` branch), and
`massFn` (the external `assign_properties`, as above). -/
noncomputable def first_quad_cloud_catalog (compute_tree_stats : Row → Row)
    (identify_edge : Row → Bool) (nearFn farFn : Row → Option ℝ)
    (massFn : Row → ℚ) (base : List Row) : List Row :=
  let with_stats := base.map compute_tree_stats
  let with_edges := with_stats.map fun r => { r with on_edge := identify_edge r }
  let with_neardist := with_edges.map fun r =>
    { r with near_distance := nearFn r, far_distance := farFn r }
  let with_distance := with_neardist.map set_unambiguous_distance
  assign_properties massFn with_distance

/-- Template row: all columns zero / false / NaN-free defaults; concrete
test rows below override individual fields. -/
def baseRow : Row :=
  { v_cen := 0, x_cen := 0, y_cen := 0, v_rms := 0, radius := 0,
    on_edge := false, n_descendants := 0, fractional_gain := 0,
    near_distance := none, far_distance := none, distance := none, mass := 0 }

/-- C4: The positive-velocity filter keeps exactly the rows satisfying
`v_cen >= 20` (so `v_cen = 20` is kept), `on_edge == 0`, `1 < v_rms <= 10`,
`n_descendants < max_descendants`, and `fractional_gain < 0.81`; all other
rows are excluded by `get_positive_velocity_clouds` before reduction. -/
theorem claim_C4 (max_descendants : ℕ) (input : List Row) (r : Row) :
    r ∈ positive_pre_filter max_descendants input ↔
      r ∈ input ∧ (20 ≤ r.v_cen ∧ r.on_edge = false ∧ 1 < r.v_rms ∧
        r.v_rms ≤ 10 ∧ r.n_descendants < max_descendants ∧
        r.fractional_gain < 0.81) := by
  unfold positive_pre_filter positive_disqualified positive_qualified
  rw [List.mem_filter]
  simp only [decide_eq_true_eq, not_or, not_lt, not_le, Bool.not_eq_true]
  tauto

def c4row : Row := { baseRow with v_cen := 20, v_rms := 2 }

theorem claim_C4_witness : c4row ∈ positive_pre_filter 30 [c4row] :=
  (claim_C4 30 [c4row] c4row).mpr
    ⟨List.mem_singleton.mpr rfl, by norm_num [c4row, baseRow]⟩

/-- C5: The negative-velocity filter keeps exactly the rows satisfying
`v_cen <= -5` and `on_edge == 0`, except that any row with
`v_cen < -10 AND x_cen < 20` is dropped regardless; no line-width,
`n_descendants`, or `fractional_gain` condition is applied. -/
theorem claim_C5 (input : List Row) (r : Row) :
    r ∈ negative_pre_filter input ↔
      r ∈ input ∧ (r.v_cen ≤ -5 ∧ r.on_edge = false ∧
        ¬ (r.v_cen < -10 ∧ r.x_cen < 20)) := by
  unfold negative_pre_filter negative_disqualified negative_gc_disqualified
  rw [List.mem_filter]
  simp only [decide_eq_true_eq, not_or, not_lt, not_le, Bool.not_eq_true]
  tauto

def c5row_gc : Row := { baseRow with v_cen := -11, x_cen := 15 }

def c5row_keep : Row :=
  { baseRow with
      v_cen := -11
      x_cen := 25
      v_rms := 50
      n_descendants := 100
      fractional_gain := 99/100 }

theorem claim_C5_witness :
    c5row_gc ∉ negative_pre_filter [c5row_gc, c5row_keep] ∧
      c5row_keep ∈ negative_pre_filter [c5row_gc, c5row_keep] := by
  constructor
  · intro h
    exact absurd ((claim_C5 [c5row_gc, c5row_keep] c5row_gc).mp h).2
      (by norm_num [c5row_gc, baseRow])
  · exact (claim_C5 [c5row_gc, c5row_keep] c5row_keep).mpr
      ⟨List.mem_cons_of_mem _ (List.mem_singleton.mpr rfl),
        by norm_num [c5row_keep, baseRow]⟩

/-- C1: For every row, the disambiguator returns `near_distance` when
`|near_size - expected_size| <= |far_size - expected_size|` (so an exact tie
yields `near_distance`), returns `far_distance` when the near deviation
strictly exceeds the far deviation (absent the latitude override), and for
any row with `|y_cen| > 1` returns `near_distance` regardless of the size
comparison. -/
theorem claim_C1 (r : Row) :
    (use_near_distance r → distance_disambiguator r = r.near_distance) ∧
    (¬ use_near_distance_latitude r → use_far_distance r →
      distance_disambiguator r = r.far_distance) ∧
    (use_near_distance_latitude r →
      distance_disambiguator r = r.near_distance) :=
  ⟨fun h => distance_disambiguator_of_near h,
    fun hl h => distance_disambiguator_of_far hl h,
    fun h => distance_disambiguator_of_latitude h⟩

theorem quad2_fit_power_ne_zero : quad2_fit_power ≠ 0 := by
  unfold quad2_fit_power; norm_num

theorem expected_size_zero : expected_size 0 = 0 := by
  unfold expected_size
  rw [mul_zero]
  exact Real.zero_rpow (one_div_ne_zero quad2_fit_power_ne_zero)

def c1row_tie : Row :=
  { baseRow with v_rms := 1, near_distance := some 2, far_distance := some 3 }

def c1row_far : Row :=
  { baseRow with radius := 1, near_distance := some 9, far_distance := some 7 }

def c1row_lat : Row :=
  { baseRow with
      y_cen := 2
      radius := 1
      near_distance := some 4
      far_distance := some 8 }

theorem claim_C1_witness :
    distance_disambiguator c1row_tie = some 2 ∧
    distance_disambiguator c1row_far = some 7 ∧
    distance_disambiguator c1row_lat = some 4 := by
  refine ⟨(claim_C1 c1row_tie).1 ?_, (claim_C1 c1row_far).2.1 ?_ ?_,
    (claim_C1 c1row_lat).2.2 ?_⟩
  · -- tie: radius 0 makes both sizes 0, hence equal deviations
    simp [use_near_distance, near_size_deviation, far_size_deviation,
      near_size, far_size, ole, c1row_tie, baseRow]
  · -- no latitude override: |0| is not > 1
    norm_num [use_near_distance_latitude, c1row_far, baseRow]
  · -- v_rms 0 gives expected_size 0; far deviation 7 < near deviation 9
    simp [use_far_distance, near_size_deviation, far_size_deviation,
      near_size, far_size, olt, c1row_far, baseRow, expected_size_zero]
    norm_num
  · norm_num [use_near_distance_latitude, c1row_lat, baseRow]

/-- C10: For any row with `|y_cen| <= 1` for which neither size-deviation
comparison evaluates true (as happens when a NaN is involved), the returned
distance is the initialization value 0. -/
theorem claim_C10 (r : Row) (hy : |r.y_cen| ≤ 1) (hn : ¬ use_near_distance r)
    (hf : ¬ use_far_distance r) : distance_disambiguator r = some 0 :=
  distance_disambiguator_of_none (fun hl => absurd hy (not_le.mpr hl)) hf hn

def c10row : Row :=
  { baseRow with
      radius := 1
      v_rms := 1
      near_distance := none
      far_distance := some 7 }

theorem claim_C10_witness :
    distance_disambiguator c10row = some 0 ∧ c10row.near_distance ≠ some 0 ∧
      c10row.far_distance ≠ some 0 := by
  refine ⟨claim_C10 c10row (by norm_num [c10row, baseRow]) ?_ ?_, ?_, ?_⟩
  · simp [use_near_distance, near_size_deviation, near_size, ole,
      c10row, baseRow]
  · simp [use_far_distance, near_size_deviation, far_size_deviation,
      near_size, far_size, olt, c10row, baseRow]
  · simp [c10row, baseRow]
  · norm_num [c10row, baseRow]

def c2row : Row :=
  { baseRow with v_cen := 0, x_cen := 40, y_cen := -2, v_rms := 2 }

/-- C2 (code evaluation at the failing input): a row with `y_cen = -2`
(satisfying every other Perseus condition) is KEPT by the source's Perseus
pre-filter, because `np.abs(catalog['y_cen'] > 1)` applies `np.abs` to a
Boolean mask (a no-op) instead of to `y_cen`; the spec requires
`|y_cen| <= 1`, which this row violates. -/
theorem claim_C2_code_eval :
    c2row ∈ perseus_pre_filter 10 [c2row] ∧ c2row.y_cen < -1 := by
  constructor
  · refine List.mem_filter.mpr ⟨List.mem_singleton.mpr rfl, ?_⟩
    rw [decide_eq_true_eq]
    constructor
    · unfold perseus_disqualified
      norm_num [c2row, baseRow]
    · unfold perseus_qualified
      norm_num [c2row, baseRow]
  · norm_num [c2row, baseRow]

/-- C6: The final cut of each region pipeline is strict: the
positive-velocity pipeline returns only rows with `mass > 3e4` (a row with
mass exactly 3e4 is excluded), the negative-velocity pipeline only rows
with `mass > 3e3`, and the Perseus pipeline only rows with `mass > 3e4`
and `5 < distance < 14`. -/
theorem claim_C6 (reduce : List Row → List Row) (massFn : Row → ℚ)
    (max_descendants : ℕ) (input : List Row) (r : Row) :
    (r ∈ get_positive_velocity_clouds reduce massFn input max_descendants →
      (30000 : ℚ) < r.mass) ∧
    (r ∈ get_negative_velocity_clouds reduce input max_descendants →
      (3000 : ℚ) < r.mass) ∧
    (r ∈ get_low_velocity_perseus_clouds reduce massFn input max_descendants →
      ((30000 : ℚ) < r.mass ∧ olt (some 5) r.distance ∧
        olt r.distance (some 14))) ∧
    (r.mass = 30000 →
      r ∉ get_positive_velocity_clouds reduce massFn input max_descendants ∧
      r ∉ get_low_velocity_perseus_clouds reduce massFn input
        max_descendants) := by
  have hpos :
      r ∈ get_positive_velocity_clouds reduce massFn input max_descendants →
        (30000 : ℚ) < r.mass := by
    intro h
    simp only [get_positive_velocity_clouds] at h
    exact of_decide_eq_true (List.mem_filter.mp h).2
  have hper :
      r ∈ get_low_velocity_perseus_clouds reduce massFn input
          max_descendants →
        ((30000 : ℚ) < r.mass ∧ olt (some 5) r.distance ∧
          olt r.distance (some 14)) := by
    intro h
    simp only [get_low_velocity_perseus_clouds] at h
    exact of_decide_eq_true (List.mem_filter.mp h).2
  refine ⟨hpos, ?_, hper, ?_⟩
  · intro h
    simp only [get_negative_velocity_clouds] at h
    exact of_decide_eq_true (List.mem_filter.mp h).2
  · intro hm
    constructor
    · intro h
      have h2 := hpos h
      rw [hm] at h2
      exact lt_irrefl _ h2
    · intro h
      have h2 := (hper h).1
      rw [hm] at h2
      exact lt_irrefl _ h2

def c6row : Row := { baseRow with mass := 30000 }

theorem claim_C6_witness :
    c6row ∉ get_positive_velocity_clouds id (fun _ => 0) [] 30 :=
  ((claim_C6 id (fun _ => 0) 30 [] c6row).2.2.2 rfl).1

/-- C7: `compile_firstquad_catalog` returns exactly the result of applying
`reduce_catalog` once to the row-wise concatenation of the three region
pipelines' outputs (negative-velocity, positive-velocity,
low-velocity-Perseus, in that stacking order; the first two with their
default `max_descendants`, the Perseus pipeline with 10), with no
additional filtering beyond that reduction. -/
theorem claim_C7 (reduce : List Row → List Row) (massFn : Row → ℚ)
    (input : List Row) :
    compile_firstquad_catalog reduce massFn input =
      reduce (get_negative_velocity_clouds reduce input 30 ++
        get_positive_velocity_clouds reduce massFn input 30 ++
        get_low_velocity_perseus_clouds reduce massFn input 10) := rfl

/-- C9: if a region pipeline's filter predicate selects no rows, that
pipeline returns an empty catalog, the emptiness propagating through
reduction (which, by its contract, only drops rows), disambiguation,
property assignment, and the final cut. -/
theorem claim_C9 (reduce : List Row → List Row)
    (hred : ∀ l, (reduce l).Sublist l) (massFn : Row → ℚ)
    (max_descendants : ℕ) (input : List Row) :
    (positive_pre_filter max_descendants input = [] →
      get_positive_velocity_clouds reduce massFn input max_descendants
        = []) ∧
    (negative_pre_filter input = [] →
      get_negative_velocity_clouds reduce input max_descendants = []) ∧
    (perseus_pre_filter max_descendants input = [] →
      get_low_velocity_perseus_clouds reduce massFn input max_descendants
        = []) := by
  have hnil : reduce [] = [] := List.sublist_nil.mp (hred [])
  refine ⟨?_, ?_, ?_⟩ <;> intro h <;>
    simp [get_positive_velocity_clouds, get_negative_velocity_clouds,
      get_low_velocity_perseus_clouds, h, hnil, assign_best_distance,
      assign_properties]

theorem claim_C9_witness :
    get_positive_velocity_clouds id (fun _ => 0) [] 30 = [] ∧
    get_negative_velocity_clouds id [] 30 = [] ∧
    get_low_velocity_perseus_clouds id (fun _ => 0) [] 30 = [] := by
  have h := claim_C9 id (fun l => List.Sublist.refl l) (fun _ => 0) 30 []
  exact ⟨h.1 rfl, h.2.1 rfl, h.2.2 rfl⟩

def c8row : Row :=
  { baseRow with
      v_cen := 10
      x_cen := 40
      v_rms := 2
      n_descendants := 20
      near_distance := some 9
      far_distance := some 9 }

/-- C8 (counterexample): invoked without an explicit `max_descendants`
argument the Perseus pipeline uses the source's default of 30, not 10: a
row with `n_descendants = 20` (passing every other Perseus condition, with
a disambiguated distance of 9 and an assigned mass above the cut) survives
the default invocation but is dropped when `max_descendants = 10` is passed
explicitly. -/
theorem claim_C8_counterexample :
    get_low_velocity_perseus_clouds_default id (fun _ => 40000) [c8row] ≠
      get_low_velocity_perseus_clouds id (fun _ => 40000) [c8row] 10 := by
  have hkeep : ¬ perseus_disqualified c8row ∧ perseus_qualified 30 c8row := by
    constructor
    · unfold perseus_disqualified
      norm_num [c8row, baseRow]
    · unfold perseus_qualified
      norm_num [c8row, baseRow]
  have hpre30 : perseus_pre_filter 30 [c8row] = [c8row] := by
    simp only [perseus_pre_filter, List.filter_cons, List.filter_nil,
      decide_eq_true hkeep, if_pos]
  have hpre10 : perseus_pre_filter 10 [c8row] = [] := by
    have hdrop : ¬ (¬ perseus_disqualified c8row ∧
        perseus_qualified 10 c8row) := by
      rintro ⟨-, hq, -⟩
      norm_num [c8row, baseRow] at hq
    simp only [perseus_pre_filter, List.filter_cons, List.filter_nil,
      decide_eq_false hdrop, if_neg, Bool.false_eq_true, not_false_iff]
  have hnear : use_near_distance c8row := by
    simp [use_near_distance, near_size_deviation, far_size_deviation,
      near_size, far_size, ole, c8row, baseRow]
  have hd : distance_disambiguator c8row = some 9 := by
    rw [distance_disambiguator_of_near hnear]; rfl
  have hL : get_low_velocity_perseus_clouds_default id (fun _ => 40000)
      [c8row] =
      [{ { c8row with distance := some 9 } with mass := 40000 }] := by
    simp only [get_low_velocity_perseus_clouds_default,
      perseus_default_max_descendants, get_low_velocity_perseus_clouds,
      id, hpre30, assign_best_distance, assign_properties, List.map_cons,
      List.map_nil, hd]
    have hfin : (30000 : ℚ) <
        ({ { c8row with distance := some 9 } with mass := 40000 } : Row).mass ∧
        olt (some 5)
          ({ { c8row with distance := some 9 } with mass := 40000 } : Row).distance ∧
        olt ({ { c8row with distance := some 9 } with mass := 40000 } : Row).distance
          (some 14) := by
      refine ⟨by norm_num, olt_some.mpr (by norm_num), olt_some.mpr (by norm_num)⟩
    simp only [List.filter_cons, List.filter_nil, decide_eq_true hfin, if_pos]
  have hR : get_low_velocity_perseus_clouds id (fun _ => 40000) [c8row] 10
      = [] := by
    simp only [get_low_velocity_perseus_clouds, id, hpre10,
      assign_best_distance, assign_properties, List.map_nil, List.filter_nil]
  rw [hL, hR]
  exact List.cons_ne_nil _ _

/-- C8 (amended): when invoked without an explicit `max_descendants`
argument, all three pipelines (Perseus included) default to 30; the
region-specific value 10 for the Perseus pipeline is passed explicitly by
`compile_firstquad_catalog`. -/
theorem claim_C8_amended (reduce : List Row → List Row) (massFn : Row → ℚ)
    (input : List Row) :
    perseus_default_max_descendants = 30 ∧
    positive_default_max_descendants = 30 ∧
    negative_default_max_descendants = 30 ∧
    compile_firstquad_catalog reduce massFn input =
      reduce (get_negative_velocity_clouds_default reduce input ++
        get_positive_velocity_clouds_default reduce massFn input ++
        get_low_velocity_perseus_clouds reduce massFn input 10) :=
  ⟨rfl, rfl, rfl, rfl⟩

/-- C3: in the base catalog returned by `first_quad_cloud_catalog`, every
row whose `near_distance` equals its `far_distance` (numpy `==`, hence
`oeq`) has `distance` equal to that shared value, and every other row has
`distance` NaN (`none`). -/
theorem claim_C3 (compute_tree_stats : Row → Row) (identify_edge : Row → Bool)
    (nearFn farFn : Row → Option ℝ) (massFn : Row → ℚ) (base : List Row)
    (r : Row)
    (h : r ∈ first_quad_cloud_catalog compute_tree_stats identify_edge
      nearFn farFn massFn base) :
    (oeq r.near_distance r.far_distance → r.distance = r.near_distance) ∧
    (¬ oeq r.near_distance r.far_distance → r.distance = none) := by
  simp only [first_quad_cloud_catalog, assign_properties, List.mem_map] at h
  obtain ⟨r4, ⟨r3, ⟨r2, ⟨r1, ⟨r0, hr0, rfl⟩, rfl⟩, rfl⟩, rfl⟩, rfl⟩ := h
  dsimp only [set_unambiguous_distance]
  constructor
  · intro he
    rw [if_pos he]
  · intro he
    rw [if_neg he]

def c3row : Row :=
  { baseRow with
      near_distance := some 5
      far_distance := some 5
      distance := some 5 }

theorem claim_C3_witness : c3row.distance = c3row.near_distance := by
  have heq : oeq (some (5:ℝ)) (some 5) := rfl
  have hmem : c3row ∈ first_quad_cloud_catalog id (fun _ => false)
      (fun _ => some 5) (fun _ => some 5) (fun _ => 0) [baseRow] := by
    simp only [first_quad_cloud_catalog, assign_properties, List.map_cons,
      List.map_nil, set_unambiguous_distance, if_pos heq]
    exact List.mem_singleton.mpr rfl
  exact (claim_C3 _ _ _ _ _ _ _ hmem).1 rfl
